import Mathlib

/-!
Shallow embedding of the Cologne-Rec scraping core, translated from
`src/scraper/bn.py` (class `Scraper`) and `src/scraper.py`
(class `FragranceScraper`), together with proofs settling the claims
about condensing, retry, caching, configuration and error isolation.

Modelling conventions:
* JSON shard files are lists of records; the shard directory is the list of
  those files in glob order.
* Network behaviour is an oracle: for retry code, `ok n` tells whether the
  n-th attempt's `session.get` returns without raising; for the async
  fetcher, an `HttpResponse` carries the status and the record that the
  (external, unspecified) BeautifulSoup extraction would produce from the
  body.
* Python floats are represented as `Rat`; no arithmetic on them is claimed.
-/

/-! ## Data model (src/scraper.py, dataclasses `FragranceNote`, `FragranceData`) -/

/-- `FragranceNote` dataclass: `{name, category, intensity}` with
`category ∈ {top, heart, base}` kept as a plain string as in the source. -/
structure FragranceNote where
  name : String
  category : String
  intensity : Option Rat
deriving DecidableEq

/-- `FragranceData` dataclass of `src/scraper.py`, field for field.
Dicts are association lists, floats are `Rat`. -/
structure FragranceData where
  name : String
  brand : String
  release_year : Option Int
  notes : List FragranceNote
  seasons : List String
  occasions : List String
  ratings : List (String × Rat)
  longevity : Option Rat
  sillage : Option Rat
  accords : List (String × Rat)
  weather_suitability : List (String × Rat)
  source_urls : List String
deriving DecidableEq

/-- ASCII lower-casing of a string, character by character (Python
`str.lower` on the ASCII brand/name strings involved here). -/
def strLower (s : String) : String :=
  ⟨s.data.map Char.toLower⟩

/-- Identity key of a record: case-normalized (brand, name), as in the
spec's data model (§3). -/
def identityKey (d : FragranceData) : String × String :=
  (strLower d.brand, strLower d.name)

/-- Number of rows in `rows` whose identity key is `k`. -/
def countKey (rows : List FragranceData) (k : String × String) : Nat :=
  (rows.filter (fun d => identityKey d = k)).length

/-! ## Condensing (src/scraper/bn.py, `Scraper.condense_data`, lines 152-162)

The Python code is
`condensed_data = []`; `for file in all_files: condensed_data += json.load(fin)`;
i.e. a left fold appending each shard file's records. It is agnostic to the
record type, so the embedding is polymorphic. -/

/-- `Scraper.condense_data`, restricted to its pure core: given the shard
files of the data directory (in glob order), produce the condensed list that
is then written to `perfume-data.json`. -/
def condense_data {α : Type} (files : List (List α)) : List α :=
  files.foldl (fun acc f => acc ++ f) []

/-! ## State of the scraper's files (bn.py)

`DATA_DIR` holds the shard files; `FILENAME + '.json'` is the condensed
output, which lives outside `DATA_DIR` and is therefore never read back by
`condense_data`. -/

/-- The files `Scraper` touches: the shard files inside `DATA_DIR` (glob
order) and the condensed output file `perfume-data.json`. -/
structure ScraperFS (α : Type) where
  dataDir : List (List α)
  outputFile : Option (List α)
deriving DecidableEq

/-- `Scraper.condense_data` as a filesystem step: read every shard in
`DATA_DIR`, write their concatenation to the output file. Shards are left
untouched. -/
def condense_data_run {α : Type} (fs : ScraperFS α) : ScraperFS α :=
  { fs with outputFile := some (condense_data fs.dataDir) }

/-- `Scraper.clear_data_dir` (lines 140-144): remove the whole shard
directory (`shutil.rmtree(DATA_DIR)`), ignoring its absence. -/
def clear_data_dir {α : Type} (fs : ScraperFS α) : ScraperFS α :=
  { fs with dataDir := [] }

/-- `Scraper.save_data` (lines 127-134): write one new timestamp-named
shard file holding `data` into `DATA_DIR`. -/
def save_data {α : Type} (fs : ScraperFS α) (data : List α) : ScraperFS α :=
  { fs with dataDir := fs.dataDir ++ [data] }

/-- Default of the `clear_old_data` parameter of `Scraper.__init__`
(line 23). -/
def clear_old_data_default : Bool := true

/-- `Scraper.scrape_site` (lines 38-50), sequential path, with the records
each page contributes abstracted as `pageData` (one entry per scraped page,
in page order): optionally clear the shard directory, save one shard per
page, then condense. -/
def scrape_site {α : Type} (clear_old_data : Bool) (pageData : List (List α))
    (fs : ScraperFS α) : ScraperFS α :=
  let fs1 := if clear_old_data then clear_data_dir fs else fs
  let fs2 := pageData.foldl save_data fs1
  condense_data_run fs2

/-! ## Concrete records used in concrete evaluations -/

/-- A record with identity key ("dior", "sauvage") as seen by one shard. -/
def sauvageA : FragranceData :=
  { name := "Sauvage", brand := "Dior", release_year := some 2015,
    notes := [⟨"Bergamot", "top", none⟩], seasons := [], occasions := [],
    ratings := [], longevity := none, sillage := none, accords := [],
    weather_suitability := [],
    source_urls := ["https://www.fragrantica.com/sauvage"] }

/-- A record with the same identity key ("dior", "sauvage") as seen by a
second shard, with a different note set and a different source URL. -/
def sauvageB : FragranceData :=
  { name := "SAUVAGE", brand := "DIOR", release_year := none,
    notes := [⟨"Ambroxan", "base", none⟩], seasons := [], occasions := [],
    ratings := [], longevity := none, sillage := none, accords := [],
    weather_suitability := [],
    source_urls := ["https://www.basenotes.net/sauvage"] }

/-! ## Retry behaviour of `Scraper.scrape_page` (bn.py, lines 52-62)

The Python code wraps `self.session.get(page_url)` in `try/except`; on an
exception it increments `retry_count` and, while `retry_count <= 3`,
recurses. When the retries are exhausted it re-raises. A frame whose own
`get` raised falls through, after the recursive call returns, to
`BeautifulSoup(response.content, ...)` with `response` never bound in that
frame, so that frame raises as well (UnboundLocalError): an exception
therefore escapes `scrape_page` whenever any attempt failed, even if a
retry succeeded and saved its data.

The oracle `ok n` says whether the attempt made at `retry_count = n`
returns a response. The guard `retry_count + 1 ≤ 3` bounds the recursion
depth by 4, so fuel 4 is exact (the fuel-0 branch is unreachable from
`retry_count = 0`). -/

/-- One frame of `scrape_page` at a given `retry_count`, with explicit
fuel. Result: (number of `session.get` calls issued for the page URL,
whether some frame reached `save_data`, whether an exception escapes). -/
def scrape_page_go (ok : Nat → Bool) : Nat → Nat → Nat × Bool × Bool
  | 0, _ => (0, false, true)
  | fuel + 1, retry_count =>
    if ok retry_count then (1, true, false)
    else if retry_count + 1 ≤ 3 then
      let r := scrape_page_go ok fuel (retry_count + 1)
      (1 + r.1, r.2.1, true)
    else (1, false, true)

/-- `Scraper.scrape_page` for one page URL, entered with `retry_count`
(0 at the call sites in `scrape_site`). -/
def scrape_page_run (ok : Nat → Bool) (retry_count : Nat) : Nat × Bool × Bool :=
  scrape_page_go ok 4 retry_count

/-- `Scraper.scrape_site` (lines 38-50), sequential path (`num_jobs = 1`),
restricted to exception propagation: pages are scraped in order; an
exception escaping `scrape_page` propagates through the `for` loop and
aborts `scrape_site` (so `condense_data` never runs). `ok p n` is the
network oracle for page `p`, attempt `n`. Returns the pages fully scraped
without an exception, or `Except.error` when the run aborted. -/
def scrape_site_pages (ok : Nat → Nat → Bool) : List Nat → Except Unit (List Nat)
  | [] => .ok []
  | p :: rest =>
    let r := scrape_page_run (ok p) 0
    if r.2.2 then .error ()
    else
      match scrape_site_pages ok rest with
      | .ok ps => .ok (p :: ps)
      | .error e => .error e

/-! ## `Scraper.remove_brackets` (bn.py, lines 112-125)

`ret = [None]*len(input_list)`; `skip1c = 0`; for each element except the
last, characters are copied unless a `'<'...'>'` depth counter `skip1c` is
positive; crucially `skip1c` is initialised once, outside the loop over
elements, so unmatched `'<'`s carry over into later elements. The final
element is never processed and stays `None`. -/

/-- The inner loop `for i in input_list[j]` of `remove_brackets`: fold the
characters of one element, starting from depth `skip1c`, producing the
copied characters and the final depth. -/
def removeBracketsElem (skip1c : Nat) (s : String) : String × Nat :=
  s.toList.foldl
    (fun (p : String × Nat) i =>
      if i = '<' then (p.1, p.2 + 1)
      else if i = '>' && decide (p.2 > 0) then (p.1, p.2 - 1)
      else if p.2 = 0 then (p.1.push i, p.2)
      else p)
    ("", skip1c)

/-- The outer loop `for j in range(0, len(input_list)-1)` of
`remove_brackets`, threading `skip1c` across elements; the last element is
left as `None`. -/
def removeBracketsGo (skip1c : Nat) : List String → List (Option String)
  | [] => []
  | [_] => [none]
  | s :: s2 :: rest =>
    let p := removeBracketsElem skip1c s
    some p.1 :: removeBracketsGo p.2 (s2 :: rest)

/-- `Scraper.remove_brackets`. -/
def remove_brackets (input_list : List String) : List (Option String) :=
  removeBracketsGo 0 input_list

/-- What claim C9 asserts for each non-final element: bracket removal
computed per element, with a fresh depth counter. -/
def removeBracketsSpecElem (s : String) : String :=
  (removeBracketsElem 0 s).1

/-! ## Configuration (src/scraper.py, `FragranceScraper._load_config`, lines 49-65)

`json.load(open(config_path))` inside `try ... except FileNotFoundError`:
only a missing file is recovered with the inline default dict; any other
I/O error (e.g. PermissionError) or a JSON decode error propagates. The
default dict holds only `rate_limits` and `urls` keys: it has no retry
count and no timeout. -/

/-- One per-source rate limit entry `{'calls': _, 'period': _}`. -/
structure RateLimit where
  calls : Nat
  period : Nat
deriving DecidableEq

/-- The configuration dictionary shape used by `FragranceScraper`. The
optional `retries`/`timeout` fields record whether the dict carries such
keys at all (the inline default carries neither). -/
structure ScraperConfig where
  rate_limits : List (String × RateLimit)
  urls : List (String × String)
  retries : Option Nat
  timeout : Option Nat
deriving DecidableEq

/-- The inline default returned when the config file is missing
(lines 56-65 of src/scraper.py). -/
def defaultScraperConfig : ScraperConfig :=
  { rate_limits := [("fragrantica", ⟨10, 60⟩), ("basenotes", ⟨5, 60⟩)],
    urls := [("fragrantica_base", "https://www.fragrantica.com"),
             ("basenotes_base", "https://www.basenotes.net")],
    retries := none,
    timeout := none }

/-- The observable state of the config file at `config_path`:
`missing` raises FileNotFoundError inside `open`; `unreadable` raises some
other OSError (e.g. PermissionError); `invalidJson` opens but fails
`json.load`; `valid cfg` parses to `cfg`. -/
inductive ConfigFileState where
  | missing
  | unreadable
  | invalidJson
  | valid (cfg : ScraperConfig)
deriving DecidableEq

/-- `FragranceScraper._load_config`: `Except.error` means the exception
propagates out of `__init__`. -/
def load_config : ConfigFileState → Except String ScraperConfig
  | .missing => .ok defaultScraperConfig
  | .unreadable => .error "OSError"
  | .invalidJson => .error "JSONDecodeError"
  | .valid cfg => .ok cfg

/-! ## Fetching (src/scraper.py, `FragranceScraper._fetch_fragrantica_data`,
lines 79-117)

The method first consults `self.data_cache`; on a hit it returns the cached
record with no network call. On a miss it issues `session.get`; a status
other than exactly 200 raises `Exception(...)` (there is no 429 branch, no
Retry-After reading, and no retry loop in this method). On status 200 the
body is parsed (BeautifulSoup + the `_extract_*` helpers — external,
abstracted here as the record carried by the response) into a
`FragranceData` whose `source_urls` is `[fragrance_url]`; the record is
stored in the cache and returned. -/

/-- A network response for the async fetcher: HTTP status plus the record
the extraction helpers would produce from the body. -/
structure HttpResponse where
  status : Nat
  record : FragranceData
deriving DecidableEq

/-- The run-scoped `data_cache` dictionary: URL → record. -/
abbrev Cache : Type := List (String × FragranceData)

/-- Dictionary lookup `url in self.data_cache` / `self.data_cache[url]`. -/
def cacheLookup (cache : Cache) (url : String) : Option FragranceData :=
  (List.find? (fun p => p.1 = url) cache).map Prod.snd

/-- Result of one `_fetch_fragrantica_data` call: the outcome (`error` =
the raised exception's message), the cache afterwards, and how many network
calls (`session.get`) the call issued. -/
structure FetchResult where
  outcome : Except String FragranceData
  cache : Cache
  networkCalls : Nat

/-- Whether an `Except` outcome is a success (no exception raised). -/
def exceptIsOk {ε α : Type} : Except ε α → Bool
  | .ok _ => true
  | .error _ => false

/-- `FragranceScraper._fetch_fragrantica_data`. -/
def fetch_fragrantica_data (cache : Cache) (url : String)
    (resp : HttpResponse) : FetchResult :=
  match cacheLookup cache url with
  | some d => ⟨.ok d, cache, 0⟩
  | none =>
    if resp.status ≠ 200 then
      let st := toString resp.status
      ⟨.error ("Failed to fetch " ++ url ++ ": " ++ st), cache, 1⟩
    else
      let data := { resp.record with source_urls := [url] }
      ⟨.ok data, (url, data) :: cache, 1⟩

/-! ## Flattening (src/scraper.py, `FragranceScraper._process_scraped_data`,
lines 209-253)

One flat row is built per input record — there is no grouping by identity
key and no merging of `source_urls`. The comma-joins of the code are kept
(`String.intercalate ","`); the joined intensity floats are kept as the
list of intensities (their decimal rendering is not modelled); the
`rating_*`/`accord_*`/`weather_*` columns are kept as the underlying
association lists; the DataFrame-level `scrape_date`/`data_version`
metadata columns (wall-clock dependent) are outside the model. -/

/-- One flattened row of the output DataFrame. -/
structure FlatRow where
  name : String
  brand : String
  release_year : Option Int
  longevity : Option Rat
  sillage : Option Rat
  seasons : String
  occasions : String
  sources : String
  top_notes : String
  top_intensities : List Rat
  heart_notes : String
  heart_intensities : List Rat
  base_notes : String
  base_intensities : List Rat
  ratings : List (String × Rat)
  accords : List (String × Rat)
  weather : List (String × Rat)
deriving DecidableEq

/-- `[n for n in frag.notes if n.category == category]`. -/
def notesOfCategory (frag : FragranceData) (category : String) :
    List FragranceNote :=
  frag.notes.filter (fun n => n.category = category)

/-- The loop body of `_process_scraped_data`: flatten one record. -/
def flattenRecord (frag : FragranceData) : FlatRow :=
  { name := frag.name,
    brand := frag.brand,
    release_year := frag.release_year,
    longevity := frag.longevity,
    sillage := frag.sillage,
    seasons := String.intercalate "," frag.seasons,
    occasions := String.intercalate "," frag.occasions,
    sources := String.intercalate "," frag.source_urls,
    top_notes :=
      String.intercalate "," ((notesOfCategory frag "top").map (·.name)),
    top_intensities := (notesOfCategory frag "top").filterMap (·.intensity),
    heart_notes :=
      String.intercalate "," ((notesOfCategory frag "heart").map (·.name)),
    heart_intensities :=
      (notesOfCategory frag "heart").filterMap (·.intensity),
    base_notes :=
      String.intercalate "," ((notesOfCategory frag "base").map (·.name)),
    base_intensities := (notesOfCategory frag "base").filterMap (·.intensity),
    ratings := frag.ratings,
    accords := frag.accords,
    weather := frag.weather_suitability }

/-- `FragranceScraper._process_scraped_data`: one row per record, in input
order. -/
def process_scraped_data (data : List FragranceData) : List FlatRow :=
  data.map flattenRecord

/-! ## Coordinator (src/scraper.py, `FragranceScraper.scrape_fragrance_data`,
lines 168-207)

For each requested source name: `'fragrantica'` and `'basenotes'` dispatch
to `self._scrape_fragrantica` / `self._scrape_basenotes` (methods referenced
but not defined in the file — abstracted as the `Except` oracles `frag` and
`bn`: `error` means the call raised); any other name logs a warning and is
skipped. A raised exception is caught by the per-source
`try/except Exception`, logged, and the loop continues; collected records
are concatenated and then passed to `_process_scraped_data`. -/

/-- The record-collection loop of `scrape_fragrance_data`. -/
def collectSourceData (frag bn : Except String (List FragranceData))
    (sources : List String) : List FragranceData :=
  sources.foldl
    (fun acc src =>
      if src = "fragrantica" then
        match frag with
        | .ok d => acc ++ d
        | .error _ => acc
      else if src = "basenotes" then
        match bn with
        | .ok d => acc ++ d
        | .error _ => acc
      else acc)
    []

/-- `FragranceScraper.scrape_fragrance_data`: collect per-source data with
per-source error isolation, then flatten into the output rows. -/
def scrape_fragrance_data (frag bn : Except String (List FragranceData))
    (sources : List String) : List FlatRow :=
  process_scraped_data (collectSourceData frag bn sources)

/-- The run-scoped cache after a sequence of further fetches (of any URLs,
with any responses), each one starting from its predecessor's cache. -/
def runFetches (cache : Cache) (reqs : List (String × HttpResponse)) :
    Cache :=
  reqs.foldl (fun c r => (fetch_fragrantica_data c r.1 r.2).cache) cache

/-- Per-source contribution of one entry of the `sources` list: the records
the loop body of `scrape_fragrance_data` appends for that source name
(nothing for a raised error or an unknown name). -/
def sourceContribution (frag bn : Except String (List FragranceData))
    (src : String) : List FragranceData :=
  if src = "fragrantica" then
    match frag with
    | .ok d => d
    | .error _ => []
  else if src = "basenotes" then
    match bn with
    | .ok d => d
    | .error _ => []
  else []

/-- The non-final elements' outputs of `remove_brackets`, with the depth
counter threaded across elements exactly as the code does. -/
def threadElems (skip1c : Nat) : List String → List String
  | [] => []
  | s :: rest =>
    let p := removeBracketsElem skip1c s
    p.1 :: threadElems p.2 rest

/-! ## Helper lemmas and claims -/

theorem condense_data_eq_flatten {α : Type} (files : List (List α)) :
    condense_data files = files.flatten := by
  suffices h : ∀ acc : List α,
      files.foldl (fun acc f => acc ++ f) acc = acc ++ files.flatten by
    simpa [condense_data] using h []
  induction files with
  | nil => intro acc; simp
  | cons f rest ih =>
      intro acc
      simp [List.foldl_cons, ih, List.append_assoc]

theorem foldl_save_data_dataDir {α : Type} (pageData : List (List α)) :
    ∀ g : ScraperFS α,
      (pageData.foldl save_data g).dataDir = g.dataDir ++ pageData := by
  induction pageData with
  | nil => intro g; simp
  | cons p rest ih =>
      intro g
      simp [List.foldl_cons, ih, save_data, List.append_assoc]

theorem scrape_site_dataDir {α : Type} (clear_old_data : Bool)
    (pageData : List (List α)) (fs : ScraperFS α) :
    (scrape_site clear_old_data pageData fs).dataDir =
      (if clear_old_data then [] else fs.dataDir) ++ pageData := by
  cases clear_old_data <;>
    simp [scrape_site, condense_data_run, clear_data_dir,
      foldl_save_data_dataDir]

theorem scrape_page_go_attempts_le (ok : Nat → Bool) :
    ∀ fuel retry_count, (scrape_page_go ok fuel retry_count).1 ≤ fuel := by
  intro fuel
  induction fuel with
  | zero => intro rc; simp [scrape_page_go]
  | succ n ih =>
      intro rc
      by_cases h : ok rc
      · simp [scrape_page_go, h]
      · by_cases h2 : rc + 1 ≤ 3
        · have := ih (rc + 1)
          simp only [scrape_page_go, h, if_false, h2, if_true, Bool.false_eq_true]
          omega
        · simp [scrape_page_go, h, h2]

/-! ## Claims -/

/-- C1 (counterexample). Two shards both hold a record with identity key
("dior", "sauvage") (differing case, notes and source URL); condensing them
yields two rows for that key, not one, so the output is not deduplicated
per identity key. -/
theorem C1_counterexample :
    identityKey sauvageA = identityKey sauvageB ∧
    countKey (condense_data [[sauvageA], [sauvageB]]) (identityKey sauvageA)
      = 2 ∧
    ¬ countKey (condense_data [[sauvageA], [sauvageB]]) (identityKey sauvageA)
        = 1 := by
  decide

/-- C1 (amended). Condensing performs no deduplication at all: for every
shard list and identity key, the number of output rows with that key is the
sum of its occurrence counts over the shards (duplicate keys yield
duplicate rows; source URLs of same-key records are never unioned into one
row). Likewise `_process_scraped_data` emits exactly one flat row per input
record, without grouping. -/
theorem C1_condense_concatenates (files : List (List FragranceData))
    (k : String × String) (data : List FragranceData) :
    countKey (condense_data files) k = (files.map (countKey · k)).sum ∧
    (process_scraped_data data).length = data.length := by
  refine ⟨?_, by simp [process_scraped_data]⟩
  rw [condense_data_eq_flatten]
  unfold countKey
  rw [List.filter_flatten, List.length_flatten, List.map_map]
  rfl

/-- C2 (counterexample). Permuting the order in which the two shard files
are read changes the condensed output (the rows appear in shard order; no
deterministic sort is applied), so condensing is not order-independent at
the level of the produced row list. -/
theorem C2_counterexample :
    condense_data [[sauvageA], [sauvageB]] ≠
      condense_data [[sauvageB], [sauvageA]] := by
  decide

/-- C2 (amended). Condensing is idempotent as a filesystem operation
(running it twice on the same shard set leaves the same state, since the
output file is not a shard and the shards are untouched), and permuting the
shard files yields a permutation — the same multiset, not the same list —
of the output rows; no deterministic row ordering is applied. -/
theorem C2_condense_idempotent_perm :
    (∀ (α : Type) (fs : ScraperFS α),
      condense_data_run (condense_data_run fs) = condense_data_run fs) ∧
    (∀ (α : Type) (files1 files2 : List (List α)), files1.Perm files2 →
      (condense_data files1).Perm (condense_data files2)) := by
  constructor
  · intro α fs; rfl
  · intro α files1 files2 h
    rw [condense_data_eq_flatten, condense_data_eq_flatten]
    exact h.flatten

/-- C2 (witness). -/
theorem C2_condense_idempotent_perm_witness :
    condense_data_run (condense_data_run (ScraperFS.mk [[sauvageA]] none)) =
      condense_data_run (ScraperFS.mk [[sauvageA]] none) ∧
    (condense_data [[sauvageA], [sauvageB]]).Perm
      (condense_data [[sauvageB], [sauvageA]]) :=
  ⟨C2_condense_idempotent_perm.1 FragranceData (ScraperFS.mk [[sauvageA]] none),
   C2_condense_idempotent_perm.2 FragranceData [[sauvageA], [sauvageB]]
     [[sauvageB], [sauvageA]] (by decide)⟩

/-- C3 (counterexample). With every attempt failing, `scrape_page` issues
4 network requests for the page URL — one initial attempt plus the 3
retries admitted by `retry_count <= 3` — exceeding the claimed bound of 3
total attempts. -/
theorem C3_counterexample :
    ¬ (scrape_page_run (fun _ => false) 0).1 ≤ 3 := by
  decide

/-- C3 (amended). For every fetch task, the total number of network
requests issued for the task's URL is at most 4: one initial attempt plus
up to 3 retries (the hard-coded constant 3 bounds `retry_count`, i.e.
retries, not total attempts). -/
theorem C3_attempts_le_four (ok : Nat → Bool) :
    (scrape_page_run ok 0).1 ≤ 4 :=
  scrape_page_go_attempts_le ok 4 0

/-- C4 (counterexample). A page whose attempts all fail makes the whole
sequential run abort with the re-raised exception: the second page is never
scraped and no condensed output is produced — the run does not continue,
and no failed-URL set is recorded anywhere (none exists in the code). -/
theorem C4_counterexample :
    scrape_site_pages (fun _ _ => false) [1, 2] = .error () ∧
    (scrape_page_run (fun _ => false) 0).2.1 = false := by
  exact ⟨rfl, rfl⟩

/-- C4 (amended). For every fetch task whose attempts all fail, no data of
that page is saved to any shard and the exception escapes `scrape_page`;
in the sequential run the exception propagates through the page loop, so
the run aborts at that page instead of continuing (and the code maintains
no failed-URL set). -/
theorem C4_exhausted_retries_abort (ok : Nat → Nat → Bool) (p : Nat)
    (rest : List Nat) (hfail : ∀ n, ok p n = false) :
    (scrape_page_run (ok p) 0).2.1 = false ∧
    (scrape_page_run (ok p) 0).2.2 = true ∧
    scrape_site_pages ok (p :: rest) = .error () := by
  have h0 := hfail 0
  have h1 := hfail 1
  have h2 := hfail 2
  have h3 := hfail 3
  refine ⟨?_, ?_, ?_⟩ <;>
    simp [scrape_site_pages, scrape_page_run, scrape_page_go, h0, h1, h2, h3]

/-- C4 (witness). -/
theorem C4_exhausted_retries_abort_witness :
    (scrape_page_run ((fun _ _ => false) 1) 0).2.1 = false ∧
    (scrape_page_run ((fun _ _ => false) 1) 0).2.2 = true ∧
    scrape_site_pages (fun _ _ => false) [1, 2] = .error () :=
  C4_exhausted_retries_abort (fun _ _ => false) 1 [2] (fun _ => rfl)

theorem cacheLookup_cons (x : String × FragranceData) (c : Cache)
    (url : String) :
    cacheLookup (x :: c) url =
      if x.1 = url then some x.2 else cacheLookup c url := by
  by_cases h : x.1 = url <;> simp [cacheLookup, List.find?_cons, h]

theorem fetch_hit (cache : Cache) (url : String) (resp : HttpResponse)
    (d : FragranceData) (h : cacheLookup cache url = some d) :
    fetch_fragrantica_data cache url resp = ⟨.ok d, cache, 0⟩ := by
  unfold fetch_fragrantica_data
  rw [h]

theorem fetch_miss_200 (cache : Cache) (url : String) (resp : HttpResponse)
    (h : cacheLookup cache url = none) (hs : resp.status = 200) :
    fetch_fragrantica_data cache url resp =
      ⟨.ok { resp.record with source_urls := [url] },
       (url, { resp.record with source_urls := [url] }) :: cache, 1⟩ := by
  unfold fetch_fragrantica_data
  rw [h]
  simp [hs]

theorem fetch_miss_not200 (cache : Cache) (url : String)
    (resp : HttpResponse) (h : cacheLookup cache url = none)
    (hs : ¬ resp.status = 200) :
    fetch_fragrantica_data cache url resp =
      ⟨.error ("Failed to fetch " ++ url ++ ": " ++ toString resp.status),
       cache, 1⟩ := by
  unfold fetch_fragrantica_data
  rw [h]
  simp [hs]

theorem cacheLookup_after_ok (cache : Cache) (url : String)
    (resp : HttpResponse) (d : FragranceData)
    (h : (fetch_fragrantica_data cache url resp).outcome = .ok d) :
    cacheLookup (fetch_fragrantica_data cache url resp).cache url = some d := by
  cases hc : cacheLookup cache url with
  | some d2 =>
      rw [fetch_hit cache url resp d2 hc] at h ⊢
      simp only [Except.ok.injEq] at h
      rw [hc, h]
  | none =>
      by_cases hs : resp.status = 200
      · rw [fetch_miss_200 cache url resp hc hs] at h ⊢
        simp only [Except.ok.injEq] at h
        rw [cacheLookup_cons]
        simp [h]
      · rw [fetch_miss_not200 cache url resp hc hs] at h
        simp at h

theorem cacheLookup_fetch_stable (cache : Cache) (url u2 : String)
    (resp : HttpResponse) (d : FragranceData)
    (h : cacheLookup cache url = some d) :
    cacheLookup (fetch_fragrantica_data cache u2 resp).cache url = some d := by
  cases hc : cacheLookup cache u2 with
  | some d2 =>
      rw [fetch_hit cache u2 resp d2 hc]
      exact h
  | none =>
      by_cases hs : resp.status = 200
      · rw [fetch_miss_200 cache u2 resp hc hs]
        rw [cacheLookup_cons]
        by_cases he : u2 = url
        · subst he
          rw [h] at hc
          cases hc
        · simp [he, h]
      · rw [fetch_miss_not200 cache u2 resp hc hs]
        exact h

theorem runFetches_stable (reqs : List (String × HttpResponse)) :
    ∀ (cache : Cache) (url : String) (d : FragranceData),
      cacheLookup cache url = some d →
      cacheLookup (runFetches cache reqs) url = some d := by
  induction reqs with
  | nil => intro c u d h; exact h
  | cons r rest ih =>
      intro c u d h
      exact ih _ u d (cacheLookup_fetch_stable c u r.1 r.2 d h)

theorem fetch_networkCalls_le_one (cache : Cache) (url : String)
    (resp : HttpResponse) :
    (fetch_fragrantica_data cache url resp).networkCalls ≤ 1 := by
  cases hc : cacheLookup cache url with
  | some d2 =>
      rw [fetch_hit cache url resp d2 hc]
      exact Nat.zero_le 1
  | none =>
      by_cases hs : resp.status = 200
      · rw [fetch_miss_200 cache url resp hc hs]
      · rw [fetch_miss_not200 cache url resp hc hs]

/-- C5 (counterexample). On a cache miss, an HTTP 204 response — a 2xx
status — does not yield a success: the call raises (as does 429, with no
rate-limited outcome, no retry-after handling and no retry inside the
call). -/
theorem C5_counterexample :
    exceptIsOk (fetch_fragrantica_data [] "u" ⟨204, sauvageA⟩).outcome
      = false ∧
    exceptIsOk (fetch_fragrantica_data [] "u" ⟨429, sauvageA⟩).outcome
      = false ∧
    (fetch_fragrantica_data [] "u" ⟨429, sauvageA⟩).networkCalls = 1 :=
  ⟨rfl, rfl, rfl⟩

/-- C5 (amended). For every response received on a cache miss: status
exactly 200 yields a success whose record (with `source_urls` set to the
fetched URL) is stored in the cache; every other status — other 2xx codes
and 429 included — makes the call raise `Exception(...)` immediately,
leaving the cache unchanged, with no RateLimited outcome, no Retry-After
reading and no retry performed by this call. -/
theorem C5_only_200_succeeds (cache : Cache) (url : String)
    (resp : HttpResponse) (hmiss : cacheLookup cache url = none) :
    (resp.status = 200 →
      fetch_fragrantica_data cache url resp =
        ⟨.ok { resp.record with source_urls := [url] },
         (url, { resp.record with source_urls := [url] }) :: cache, 1⟩) ∧
    (resp.status ≠ 200 →
      fetch_fragrantica_data cache url resp =
        ⟨.error ("Failed to fetch " ++ url ++ ": " ++ toString resp.status),
         cache, 1⟩) := by
  unfold fetch_fragrantica_data
  rw [hmiss]
  constructor
  · intro h200; simp [h200]
  · intro hne; simp [hne]

/-- C5 (witness). -/
theorem C5_only_200_succeeds_witness :
    fetch_fragrantica_data [] "u" ⟨200, sauvageA⟩ =
      ⟨.ok { sauvageA with source_urls := ["u"] },
       [("u", { sauvageA with source_urls := ["u"] })], 1⟩ ∧
    fetch_fragrantica_data [] "u" ⟨204, sauvageA⟩ =
      ⟨.error ("Failed to fetch " ++ "u" ++ ": " ++ toString 204), [], 1⟩ :=
  ⟨(C5_only_200_succeeds [] "u" ⟨200, sauvageA⟩ rfl).1 rfl,
   (C5_only_200_succeeds [] "u" ⟨204, sauvageA⟩ rfl).2 (by decide)⟩

/-- C6. Once a fetch of a URL has succeeded, every later fetch of the same
URL in the run — after any number of intermediate fetches of any URLs —
returns the cached record with zero network calls; in particular fetching
the same URL twice issues at most one network call in total. -/
theorem C6_cache_hit_no_network (cache : Cache) (url : String)
    (resp1 resp2 : HttpResponse) (d : FragranceData)
    (reqs : List (String × HttpResponse))
    (h1 : (fetch_fragrantica_data cache url resp1).outcome = .ok d) :
    fetch_fragrantica_data
        (runFetches (fetch_fragrantica_data cache url resp1).cache reqs)
        url resp2 =
      ⟨.ok d,
       runFetches (fetch_fragrantica_data cache url resp1).cache reqs, 0⟩ ∧
    (fetch_fragrantica_data cache url resp1).networkCalls +
      (fetch_fragrantica_data
        (runFetches (fetch_fragrantica_data cache url resp1).cache reqs)
        url resp2).networkCalls ≤ 1 := by
  have hl := runFetches_stable reqs _ url d
    (cacheLookup_after_ok cache url resp1 d h1)
  have h2 := fetch_hit
    (runFetches (fetch_fragrantica_data cache url resp1).cache reqs)
    url resp2 d hl
  refine ⟨h2, ?_⟩
  have h3 : (fetch_fragrantica_data
      (runFetches (fetch_fragrantica_data cache url resp1).cache reqs)
      url resp2).networkCalls = 0 := by
    rw [h2]
  rw [h3]
  simpa using fetch_networkCalls_le_one cache url resp1

/-- C6 (witness). -/
theorem C6_cache_hit_no_network_witness :
    fetch_fragrantica_data
        (runFetches
          (fetch_fragrantica_data [] "u" ⟨200, sauvageA⟩).cache
          [("v", ⟨200, sauvageB⟩)])
        "u" ⟨500, sauvageB⟩ =
      ⟨.ok { sauvageA with source_urls := ["u"] },
       runFetches
         (fetch_fragrantica_data [] "u" ⟨200, sauvageA⟩).cache
         [("v", ⟨200, sauvageB⟩)], 0⟩ ∧
    (fetch_fragrantica_data [] "u" ⟨200, sauvageA⟩).networkCalls +
      (fetch_fragrantica_data
        (runFetches
          (fetch_fragrantica_data [] "u" ⟨200, sauvageA⟩).cache
          [("v", ⟨200, sauvageB⟩)])
        "u" ⟨500, sauvageB⟩).networkCalls ≤ 1 :=
  C6_cache_hit_no_network [] "u" ⟨200, sauvageA⟩ ⟨500, sauvageB⟩
    { sauvageA with source_urls := ["u"] } [("v", ⟨200, sauvageB⟩)] rfl

/-- C7 (counterexample). A config file that exists but is unreadable (any
OSError other than FileNotFoundError) or holds invalid JSON makes loading
raise rather than fall back; and the fallback used for a missing file
contains no retry count and no timeout at all, in particular not the
claimed 3 retries / 30s timeout. -/
theorem C7_counterexample :
    exceptIsOk (load_config .unreadable) = false ∧
    exceptIsOk (load_config .invalidJson) = false ∧
    defaultScraperConfig.retries = none ∧
    ¬ defaultScraperConfig.retries = some 3 ∧
    defaultScraperConfig.timeout = none := by
  decide

/-- C7 (amended). Only a missing config file (FileNotFoundError) falls back
to the inline defaults, which consist of the rate limits 10 calls/60s for
fragrantica and 5 calls/60s for basenotes plus the two base URLs — with no
retry count and no timeout; a file that is unreadable for any other reason,
or whose JSON is invalid, makes loading raise; a readable valid file is
returned as-is. -/
theorem C7_defaults_only_for_missing :
    load_config .missing = .ok defaultScraperConfig ∧
    defaultScraperConfig.rate_limits =
      [("fragrantica", ⟨10, 60⟩), ("basenotes", ⟨5, 60⟩)] ∧
    defaultScraperConfig.retries = none ∧
    defaultScraperConfig.timeout = none ∧
    exceptIsOk (load_config .unreadable) = false ∧
    exceptIsOk (load_config .invalidJson) = false ∧
    (∀ cfg : ScraperConfig, load_config (.valid cfg) = .ok cfg) :=
  ⟨rfl, rfl, rfl, rfl, rfl, rfl, fun _ => rfl⟩

theorem collectSourceData_step (frag bn : Except String (List FragranceData))
    (acc : List FragranceData) (s : String) :
    (if s = "fragrantica" then
      match frag with
      | .ok d => acc ++ d
      | .error _ => acc
    else if s = "basenotes" then
      match bn with
      | .ok d => acc ++ d
      | .error _ => acc
    else acc) = acc ++ sourceContribution frag bn s := by
  unfold sourceContribution
  by_cases h1 : s = "fragrantica"
  · cases frag <;> simp [h1]
  · by_cases h2 : s = "basenotes" <;> cases bn <;> simp [h1, h2]

theorem collectSourceData_eq_flatten
    (frag bn : Except String (List FragranceData)) :
    ∀ (sources : List String) (acc : List FragranceData),
      sources.foldl
        (fun acc src =>
          if src = "fragrantica" then
            match frag with
            | .ok d => acc ++ d
            | .error _ => acc
          else if src = "basenotes" then
            match bn with
            | .ok d => acc ++ d
            | .error _ => acc
          else acc) acc
      = acc ++ (sources.map (sourceContribution frag bn)).flatten := by
  intro sources
  induction sources with
  | nil => intro acc; simp
  | cons s rest ih =>
      intro acc
      rw [List.foldl_cons, ih]
      rw [collectSourceData_step frag bn acc s, List.map_cons,
        List.flatten_cons, List.append_assoc]

theorem collectSourceData_eq (frag bn : Except String (List FragranceData))
    (sources : List String) :
    collectSourceData frag bn sources =
      (sources.map (sourceContribution frag bn)).flatten := by
  unfold collectSourceData
  simpa using collectSourceData_eq_flatten frag bn sources []

theorem sourceContribution_error_left (e : String)
    (bn : Except String (List FragranceData)) :
    sourceContribution (.error e) bn = sourceContribution (.ok []) bn := by
  funext src
  unfold sourceContribution
  by_cases h1 : src = "fragrantica" <;> simp [h1]

theorem sourceContribution_error_right (e : String)
    (frag : Except String (List FragranceData)) :
    sourceContribution frag (.error e) = sourceContribution frag (.ok []) := by
  funext src
  unfold sourceContribution
  by_cases h1 : src = "fragrantica"
  · simp [h1]
  · by_cases h2 : src = "basenotes" <;> simp [h1, h2]

/-- C8. An error raised while scraping one source is absorbed by the
per-source `try/except`: the run still completes over the remaining
sources, producing exactly the rows it would produce if the failing source
had contributed no records — in particular, with fragrantica failing and
basenotes succeeding, the output is exactly the basenotes data, flattened. -/
theorem C8_source_error_isolated (e1 e2 : String)
    (frag bn : Except String (List FragranceData))
    (dB : List FragranceData) :
    (∀ sources : List String,
      scrape_fragrance_data (.error e1) bn sources =
        scrape_fragrance_data (.ok []) bn sources) ∧
    (∀ sources : List String,
      scrape_fragrance_data frag (.error e2) sources =
        scrape_fragrance_data frag (.ok []) sources) ∧
    scrape_fragrance_data (.error e1) (.ok dB)
        ["fragrantica", "basenotes"] =
      process_scraped_data dB := by
  refine ⟨?_, ?_, ?_⟩
  · intro sources
    unfold scrape_fragrance_data
    rw [collectSourceData_eq, collectSourceData_eq,
      sourceContribution_error_left]
  · intro sources
    unfold scrape_fragrance_data
    rw [collectSourceData_eq, collectSourceData_eq,
      sourceContribution_error_right]
  · unfold scrape_fragrance_data
    rw [collectSourceData_eq]
    simp [sourceContribution]

theorem threadElems_length : ∀ (l : List String) (skip : Nat),
    (threadElems skip l).length = l.length := by
  intro l
  induction l with
  | nil => intro skip; rfl
  | cons s rest ih =>
      intro skip
      simp [threadElems, ih]

theorem removeBracketsGo_char : ∀ (l : List String) (skip : Nat), l ≠ [] →
    removeBracketsGo skip l =
      (threadElems skip l.dropLast).map some ++ [none] := by
  intro l
  induction l with
  | nil => intro skip h; exact absurd rfl h
  | cons s tail ih =>
      intro skip _
      cases tail with
      | nil => rfl
      | cons s2 rest =>
          rw [removeBracketsGo, ih ((removeBracketsElem skip s).2) (by simp)]
          simp [threadElems]

theorem threadElems_balanced : ∀ l : List String,
    (∀ s ∈ l, (removeBracketsElem 0 s).2 = 0) →
    threadElems 0 l = l.map removeBracketsSpecElem := by
  intro l
  induction l with
  | nil => intro h; rfl
  | cons s rest ih =>
      intro h
      have hs := h s (by simp)
      rw [threadElems]
      simp only [hs]
      rw [ih (fun x hx => h x (by simp [hx]))]
      rfl

/-- C9 (counterexample). The depth counter survives across list elements:
after the element `"<"` leaves it at 1, the element `"abc"` — which
contains no brackets and should come out unchanged under per-element
bracket removal — is emptied instead. -/
theorem C9_counterexample :
    remove_brackets ["<", "abc", "x"] = [some "", some "", none] ∧
    removeBracketsSpecElem "abc" = "abc" ∧
    ("" : String) ≠ "abc" := by
  decide

/-- C9 (amended). For every non-empty input list, `remove_brackets` returns
a list of the same length whose last element is `none` (the final input
element is never processed); and provided the bracket depth counter — which
is shared across elements — returns to zero on each element (in particular
when every element's brackets are balanced), each earlier output element is
the corresponding input with its bracketed spans removed. -/
theorem C9_remove_brackets_shape (l : List String) (hne : l ≠ []) :
    (remove_brackets l).length = l.length ∧
    (remove_brackets l).getLast? = some none ∧
    ((∀ s ∈ l, (removeBracketsElem 0 s).2 = 0) →
      remove_brackets l =
        (l.dropLast.map removeBracketsSpecElem).map some ++ [none]) := by
  have hchar := removeBracketsGo_char l 0 hne
  have hrb : remove_brackets l = removeBracketsGo 0 l := rfl
  refine ⟨?_, ?_, ?_⟩
  · rw [hrb, hchar]
    simp only [List.length_append, List.length_map, threadElems_length,
      List.length_dropLast, List.length_cons, List.length_nil]
    have hpos : 0 < l.length := List.length_pos.mpr hne
    omega
  · rw [hrb, hchar]
    simp
  · intro hbal
    have hbal2 : ∀ s ∈ l.dropLast, (removeBracketsElem 0 s).2 = 0 :=
      fun s hs => hbal s (List.dropLast_subset l hs)
    rw [hrb, hchar, threadElems_balanced l.dropLast hbal2]

/-- C9 (witness). -/
theorem C9_remove_brackets_shape_witness :
    (remove_brackets ["a<b>c", "d"]).length = 2 ∧
    (remove_brackets ["a<b>c", "d"]).getLast? = some none ∧
    remove_brackets ["a<b>c", "d"] = [some "ac", none] := by
  obtain ⟨h1, h2, h3⟩ := C9_remove_brackets_shape ["a<b>c", "d"] (by decide)
  refine ⟨h1, h2, ?_⟩
  rw [h3 (by decide)]
  decide

/-- C10. `clear_old_data` defaults to `True`, and with it set, the first
thing `scrape_site` does is delete the whole shard directory; the state
after the run is therefore exactly the shards of the current run plus a
condensed output built from them alone — shard files of previous runs never
contribute, whatever the starting state was. -/
theorem C10_clear_old_data_fresh {α : Type} (pageData : List (List α))
    (fs : ScraperFS α) :
    clear_old_data_default = true ∧
    scrape_site clear_old_data_default pageData fs =
      ⟨pageData, some (condense_data pageData)⟩ := by
  refine ⟨rfl, ?_⟩
  have h1 : scrape_site clear_old_data_default pageData fs =
      condense_data_run (pageData.foldl save_data (clear_data_dir fs)) := rfl
  have h2 : (pageData.foldl save_data (clear_data_dir fs)).dataDir
      = pageData := by
    rw [foldl_save_data_dataDir]
    simp [clear_data_dir]
  have h3 : ∀ g : ScraperFS α,
      condense_data_run g = ⟨g.dataDir, some (condense_data g.dataDir)⟩ :=
    fun g => rfl
  rw [h1, h3, h2]
